import Mathlib

/-!
Verification of `update_readme.py` ("Document Splicer").

The script reads `README.md`, locates three literal section markers by
first-occurrence substring search (Python `str.index`), partitions the
document into spans, splices in two newly authored content blocks, and
writes the result back.

The embedding below models the document as a `List Char`, Python's
`str.index` as `findSub`, Python slicing `s[a:b]` as `(take b).drop a`,
and the file as an explicit `FileState` threaded through `update_readme`.
-/

set_option maxRecDepth 10000

/-- Python `str.index(pat)` on lists of characters: the index of the first
occurrence of `pat` as a contiguous substring, or `none` when `pat` does not
occur (Python raises `ValueError` there). -/
def findSub (pat : List Char) : List Char → Option Nat
  | [] => if pat.isPrefixOf ([] : List Char) then some 0 else none
  | c :: rest =>
      if pat.isPrefixOf (c :: rest) then some 0
      else (findSub pat rest).map (· + 1)

/-- The marker `features_overview_marker` from line 83 of the source. -/
def features_overview_marker : List Char := "## Features Overview".data

/-- The marker `old_compile_marker` from line 84 of the source. -/
def old_compile_marker : List Char := "## How to Compile & Run Examples".data

/-- The marker `skip_list_marker` from line 85 of the source. -/
def skip_list_marker : List Char := "## Skip List (`skiplist.h`)".data

/-!
The two replacement blocks are the triple-quoted Python literals of source
lines 11-22 (`new_dir_structure_section`) and 24-80 (`new_compile_section`).
In those literals the two-character sequences backslash + backtick are
unrecognized escape sequences, which Python keeps verbatim; they appear
below as `\\` followed by a backtick.  Each Python literal is transcribed
split at line boundaries into consecutive chunk strings (concatenating the
chunks of a block, in order, restores the literal byte for byte); the split
only keeps every list the kernel ever traverses short.
-/

/-- Chunk 1/3 of the `new_dir_structure_section` literal (source lines 11-22). -/
def nsChunk1 : String :=
"## Directory Structure\n\nThe project is organized as follows:\n\n- \\`CMakeLists.txt\\`: The main CMake file to configure and build the project.\n- \\`include/\\`: Contains the header files for the data structures (\\`skiplist.h\\`, \\`trie.h\\`, \\`policy_radix.h\\`). Since these are header-only libraries, you primarily interact with these files.\n"

/-- Chunk 2/3 of the `new_dir_structure_section` literal. -/
def nsChunk2 : String :=
"- \\`examples/\\`: Contains example source files (\\`example.cpp\\`, \\`use_policy.cpp\\`, \\`use_skip.cpp\\`) demonstrating how to use the data structures.\n- \\`tests/\\`: Contains test source files and related data.\n  - \\`tests/CMakeLists.txt\\`: CMake file specifically for building and running tests using Google Test.\n  - \\`tests/trie_test.txt\\`: Example test data for the Trie.\n"

/-- Chunk 3/3 of the `new_dir_structure_section` literal. -/
def nsChunk3 : String :=
"- \\`.gitignore\\`: Specifies intentionally untracked files that Git should ignore.\n"

/-- Chunk 1/4 of the `new_compile_section` literal (source lines 24-80). -/
def ncChunk1 : String :=
"## How to Compile & Run\n\nThis project uses CMake to manage the build process. The data structures themselves are header-only and located in the \\`include/\\` directory. Examples and tests are provided to demonstrate usage and verify functionality.\n\n### Prerequisites\n- A C++17 compliant compiler (e.g., GCC, Clang, MSVC)\n- CMake (version 3.10 or higher recommended)\n\n### Building the Project (Examples and Tests)\n\n1.  **Clone the repository:**\n"

/-- Chunk 2/4 of the `new_compile_section` literal. -/
def ncChunk2 : String :=
"    \\`\\`\\`bash\n    git clone <repository_url>\n    cd <repository_directory>\n    \\`\\`\\`\n\n2.  **Configure with CMake:**\n    It\x27s recommended to build in a separate directory (e.g., \\`build/\\`):\n    \\`\\`\\`bash\n    mkdir build\n    cd build\n    cmake ..\n    \\`\\`\\`\n    This will configure the project and generate build files for your environment (e.g., Makefiles on Linux/macOS, Visual Studio solution on Windows).\n\n3.  **Compile:**\n    \\`\\`\\`bash\n"

/-- Chunk 3/4 of the `new_compile_section` literal. -/
def ncChunk3 : String :=
"    cmake --build .\n    \\`\\`\\`\n    Or, if using Makefiles (after \\`cmake ..\\`):\n    \\`\\`\\`bash\n    make\n    \\`\\`\\`\n    This will compile the example executables (e.g., \\`trie_example\\`, \\`policy_example\\`, \\`skip_example\\`) and the test runner (\\`run_tests\\`). The executables will typically be found in the \\`build/\\` directory.\n\n### Running Examples\n\nAfter successful compilation, you can run the examples from the build directory:\n\\`\\`\\`bash\n"

/-- Chunk 4/4 of the `new_compile_section` literal. -/
def ncChunk4 : String :=
"./trie_example\n./policy_example\n./skip_example\n\\`\\`\\`\n*(Note: On Windows, they would be \\`.exe\\` files, e.g., \\`./trie_example.exe\\`)*\n\n### Running Tests\n\nThe tests are compiled into an executable named \\`run_tests\\`. You can run it from the build directory:\n\\`\\`\\`bash\n./run_tests\n\\`\\`\\`\nOr, using CTest (which is configured by CMake):\n\\`\\`\\`bash\nctest\n\\`\\`\\`\nCTest will provide a summary of test results.\n"

/-- The literal block `new_dir_structure_section` (source lines 11-22),
as the character sequence its chunks concatenate to. -/
def new_dir_structure_section : List Char :=
  nsChunk1.data ++ nsChunk2.data ++ nsChunk3.data

/-- The literal block `new_compile_section` (source lines 24-80),
as the character sequence its chunks concatenate to. -/
def new_compile_section : List Char :=
  ncChunk1.data ++ ncChunk2.data ++ ncChunk3.data ++ ncChunk4.data

/-- The pure splicing core of `update_readme` (source lines 88-115): locate
the three markers with `str.index`; on `ValueError` (`none`) abort, otherwise
slice and reassemble. Python `s[a:b]` is `(s.take b).drop a` and `s[:a]`,
`s[c:]` are `take a`, `drop c`. -/
def update_readme_content (current_readme_content : List Char) :
    Option (List Char) :=
  match findSub features_overview_marker current_readme_content,
        findSub old_compile_marker current_readme_content,
        findSub skip_list_marker current_readme_content with
  | some intro_end_index, some old_compile_start_index,
      some skip_list_start_index =>
      some ((current_readme_content.take intro_end_index)
        ++ new_dir_structure_section
        ++ ['\n']
        ++ ((current_readme_content.take old_compile_start_index).drop
              intro_end_index)
        ++ new_compile_section
        ++ ['\n']
        ++ (current_readme_content.drop skip_list_start_index))
  | _, _, _ => none

/-- The state of the `README.md` file as the program can observe it: absent
(the `open` raises `FileNotFoundError`), present but unreadable (the `open`
or `read` raises some other `OSError`, e.g. `PermissionError`), or readable
with the given content. -/
inductive FileState
  | absent : FileState
  | unreadable : List Char → FileState
  | readable : List Char → FileState
deriving DecidableEq

/-- The observable outcome of one run of `update_readme()`:
`ok` ("README.md updated successfully."), `notFound`
("Error: README.md not found."), `markerNotFound` ("Error: One of the
section markers not found in README.md. Cannot proceed."), or
`uncaughtError` for an exception the script does not catch (its only read
handler is `except FileNotFoundError`, line 7). -/
inductive RunResult
  | ok : RunResult
  | notFound : RunResult
  | markerNotFound : RunResult
  | uncaughtError : RunResult
deriving DecidableEq

/-- One run of `update_readme()` (source lines 3-122): read the file, splice,
write back. Returns the file state after the run and the reported outcome.
A missing file is caught (`except FileNotFoundError`) and reported; any
other read failure propagates as an uncaught exception; in both cases
nothing is written. -/
def update_readme : FileState → FileState × RunResult
  | .absent => (.absent, .notFound)
  | .unreadable c => (.unreadable c, .uncaughtError)
  | .readable doc =>
      match update_readme_content doc with
      | none => (.readable doc, .markerNotFound)
      | some out => (.readable out, .ok)

/-- The triple of first-occurrence marker indices that lines 89-91 of the
source compute, each an independent search over the whole document. -/
def locateMarkers (doc : List Char) : Option Nat × Option Nat × Option Nat :=
  (findSub features_overview_marker doc,
   findSub old_compile_marker doc,
   findSub skip_list_marker doc)

/-- `pat` occurs (as a contiguous substring) somewhere in `l`. -/
def occursIn (pat l : List Char) : Prop :=
  ∃ i, pat.isPrefixOf (l.drop i) = true

/-- `i` is the index of the first occurrence of `pat` in `doc`. -/
def firstOccursAt (pat doc : List Char) (i : Nat) : Prop :=
  pat.isPrefixOf (doc.drop i) = true ∧
    ∀ j, j < i → pat.isPrefixOf (doc.drop j) = false

theorem isPrefixOf_iff_exists (pat : List Char) :
    ∀ l : List Char, pat.isPrefixOf l = true ↔ ∃ t, l = pat ++ t := by
  induction pat with
  | nil =>
      intro l
      simp [List.isPrefixOf]
  | cons a as ih =>
      intro l
      cases l with
      | nil =>
          simp [List.isPrefixOf]
      | cons b bs =>
          simp only [List.isPrefixOf, Bool.and_eq_true, beq_iff_eq, ih bs,
            List.cons_append, List.cons.injEq]
          constructor
          · rintro ⟨hab, t, ht⟩
            exact ⟨t, hab.symm, ht⟩
          · rintro ⟨t, hab, ht⟩
            exact ⟨hab.symm, t, ht⟩

theorem isPrefixOf_trans {p l₁ l₂ : List Char}
    (h₁ : p.isPrefixOf l₁ = true) (h₂ : l₁.isPrefixOf l₂ = true) :
    p.isPrefixOf l₂ = true := by
  rw [isPrefixOf_iff_exists] at h₁ h₂ ⊢
  obtain ⟨t₁, ht₁⟩ := h₁
  obtain ⟨t₂, ht₂⟩ := h₂
  exact ⟨t₁ ++ t₂, by rw [ht₂, ht₁, List.append_assoc]⟩

theorem take_isPrefixOf (l : List Char) (n : Nat) :
    (l.take n).isPrefixOf l = true := by
  rw [isPrefixOf_iff_exists]
  exact ⟨l.drop n, (List.take_append_drop n l).symm⟩

theorem findSub_some (pat : List Char) :
    ∀ (l : List Char) (i : Nat), findSub pat l = some i →
      firstOccursAt pat l i := by
  intro l
  induction l with
  | nil =>
      intro i h
      by_cases hp : pat.isPrefixOf ([] : List Char) = true
      · simp [findSub, hp] at h
        subst h
        exact ⟨hp, fun j hj => absurd hj (Nat.not_lt_zero j)⟩
      · simp [findSub, hp] at h
  | cons c rest ih =>
      intro i h
      by_cases hp : pat.isPrefixOf (c :: rest) = true
      · simp [findSub, hp] at h
        subst h
        exact ⟨hp, fun j hj => absurd hj (Nat.not_lt_zero j)⟩
      · have heq : findSub pat (c :: rest) = (findSub pat rest).map (· + 1) := by
          simp [findSub, hp]
        rw [heq, Option.map_eq_some'] at h
        obtain ⟨i', hi', rfl⟩ := h
        obtain ⟨hpre, hmin⟩ := ih i' hi'
        refine ⟨by simpa using hpre, ?_⟩
        intro j hj
        cases j with
        | zero =>
            simpa using Bool.eq_false_iff.mpr hp
        | succ j' =>
            have : j' < i' := Nat.lt_of_succ_lt_succ hj
            simpa using hmin j' this

theorem findSub_none (pat : List Char) :
    ∀ l : List Char, findSub pat l = none →
      ∀ i, pat.isPrefixOf (l.drop i) = false := by
  intro l
  induction l with
  | nil =>
      intro h i
      by_cases hp : pat.isPrefixOf ([] : List Char) = true
      · simp [findSub, hp] at h
      · simpa using Bool.eq_false_iff.mpr hp
  | cons c rest ih =>
      intro h i
      by_cases hp : pat.isPrefixOf (c :: rest) = true
      · simp [findSub, hp] at h
      · have heq : findSub pat (c :: rest) = (findSub pat rest).map (· + 1) := by
          simp [findSub, hp]
        rw [heq, Option.map_eq_none'] at h
        cases i with
        | zero => simpa using Bool.eq_false_iff.mpr hp
        | succ i' => simpa using ih h i'

theorem findSub_eq_none_of_not_occurs {pat l : List Char}
    (h : ¬ occursIn pat l) : findSub pat l = none := by
  cases hf : findSub pat l with
  | none => rfl
  | some i =>
      exact absurd ⟨i, (findSub_some pat l i hf).1⟩ h

theorem not_occursIn_of_findSub_none {pat l : List Char}
    (h : findSub pat l = none) : ¬ occursIn pat l := by
  rintro ⟨i, hi⟩
  have := findSub_none pat l h i
  rw [hi] at this
  exact Bool.noConfusion this

/-- When all three markers are found, `update_readme_content` returns
exactly the reassembled document of source lines 99-115. -/
theorem update_readme_content_eq {doc : List Char} {iA iB iC : Nat}
    (hA : findSub features_overview_marker doc = some iA)
    (hB : findSub old_compile_marker doc = some iB)
    (hC : findSub skip_list_marker doc = some iC) :
    update_readme_content doc =
      some (doc.take iA ++ new_dir_structure_section ++ ['\n']
        ++ (doc.take iB).drop iA ++ new_compile_section ++ ['\n']
        ++ doc.drop iC) := by
  unfold update_readme_content
  rw [hA, hB, hC]

theorem isPrefixOf_append_left {p a : List Char} (z : List Char)
    (h : p.isPrefixOf a = true) : p.isPrefixOf (a ++ z) = true := by
  rw [isPrefixOf_iff_exists] at h ⊢
  obtain ⟨t, rfl⟩ := h
  exact ⟨t ++ z, by rw [List.append_assoc]⟩

theorem isPrefixOf_append_take {p a ys : List Char} (ha : a ≠ [])
    (h : p.isPrefixOf (a ++ ys) = true) :
    p.isPrefixOf (a ++ ys.take (p.length - 1)) = true := by
  rw [isPrefixOf_iff_exists] at h
  obtain ⟨t, ht⟩ := h
  rcases le_or_lt p.length a.length with hle | hlt
  · have hp : p = a.take p.length := by
      have h1 : p = (a ++ ys).take p.length := by
        rw [ht]
        exact (List.take_left p t).symm
      rw [List.take_append_eq_append_take, Nat.sub_eq_zero_of_le hle,
        List.take_zero, List.append_nil] at h1
      exact h1
    have hpa : p.isPrefixOf a = true := by
      rw [hp]
      exact take_isPrefixOf a p.length
    exact isPrefixOf_append_left _ hpa
  · have ha1 : 1 ≤ a.length := by
      rcases Nat.eq_zero_or_pos a.length with h0 | h1
      · exact absurd (List.length_eq_zero.mp h0) ha
      · exact h1
    have haeq : a = p.take a.length := by
      have h1 : a = (a ++ ys).take a.length := (List.take_left a ys).symm
      rw [ht, List.take_append_eq_append_take,
        Nat.sub_eq_zero_of_le (Nat.le_of_lt hlt), List.take_zero,
        List.append_nil] at h1
      exact h1
    have hyseq : ys = p.drop a.length ++ t := by
      have h1 : ys = (a ++ ys).drop a.length := (List.drop_left a ys).symm
      rw [ht, List.drop_append_eq_append_drop,
        Nat.sub_eq_zero_of_le (Nat.le_of_lt hlt), List.drop_zero] at h1
      exact h1
    have hp2len : (p.drop a.length).length ≤ p.length - 1 := by
      rw [List.length_drop]
      omega
    have hjoin : a ++ List.drop a.length p = p := by
      nth_rewrite 1 [haeq]
      exact List.take_append_drop a.length p
    rw [isPrefixOf_iff_exists]
    refine ⟨t.take (p.length - 1 - (p.drop a.length).length), ?_⟩
    rw [hyseq, List.take_append_eq_append_take,
      List.take_of_length_le hp2len, ← List.append_assoc, hjoin]

theorem occursIn_append_split {pat xs ys : List Char}
    (h : occursIn pat (xs ++ ys)) :
    occursIn pat (xs ++ ys.take (pat.length - 1)) ∨ occursIn pat ys := by
  obtain ⟨i, hi⟩ := h
  rw [List.drop_append_eq_append_drop] at hi
  rcases Nat.lt_or_ge i xs.length with hlt | hge
  · left
    have hne : xs.drop i ≠ [] := by
      intro h0
      have hlen := congrArg List.length h0
      rw [List.length_drop] at hlen
      simp at hlen
      omega
    rw [Nat.sub_eq_zero_of_le (Nat.le_of_lt hlt), List.drop_zero] at hi
    have hres := isPrefixOf_append_take hne hi
    refine ⟨i, ?_⟩
    rw [List.drop_append_eq_append_drop,
      Nat.sub_eq_zero_of_le (Nat.le_of_lt hlt), List.drop_zero]
    exact hres
  · right
    rw [List.drop_eq_nil_of_le hge, List.nil_append] at hi
    exact ⟨i - xs.length, hi⟩

theorem not_occursIn_append_chain {pat xs ys : List Char}
    (h1 : findSub pat (xs ++ ys.take (pat.length - 1)) = none)
    (h2 : ¬ occursIn pat ys) : ¬ occursIn pat (xs ++ ys) := fun h =>
  (occursIn_append_split h).elim (not_occursIn_of_findSub_none h1) h2

/-- No occurrence of `pat` fits inside `(doc.take n).drop m` when the first
occurrence of `pat` in `doc` starts at `i` and `n ≤ i`. -/
theorem not_occursIn_take_drop {pat doc : List Char} {i : Nat}
    (h : firstOccursAt pat doc i) (hne : pat ≠ []) {n m : Nat} (hn : n ≤ i) :
    ¬ occursIn pat ((doc.take n).drop m) := by
  rintro ⟨j, hj⟩
  rw [List.drop_drop, List.drop_take] at hj
  rcases Nat.lt_or_ge (m + j) n with hlt | hge
  · have h1 : pat.isPrefixOf (doc.drop (m + j)) = true :=
      isPrefixOf_trans hj (take_isPrefixOf _ _)
    have h2 := h.2 (m + j) (Nat.lt_of_lt_of_le hlt hn)
    rw [h1] at h2
    exact Bool.noConfusion h2
  · rw [Nat.sub_eq_zero_of_le hge, List.take_zero] at hj
    rw [isPrefixOf_iff_exists] at hj
    obtain ⟨t, ht⟩ := hj
    exact hne (List.append_eq_nil.mp ht.symm).1

theorem not_occursIn_B_new_dir_structure :
    ¬ occursIn old_compile_marker new_dir_structure_section := by
  unfold new_dir_structure_section
  rw [List.append_assoc]
  exact not_occursIn_append_chain rfl
    (not_occursIn_append_chain rfl (not_occursIn_of_findSub_none rfl))

theorem not_occursIn_B_new_compile :
    ¬ occursIn old_compile_marker new_compile_section := by
  unfold new_compile_section
  rw [List.append_assoc, List.append_assoc]
  exact not_occursIn_append_chain rfl
    (not_occursIn_append_chain rfl
      (not_occursIn_append_chain rfl (not_occursIn_of_findSub_none rfl)))

theorem not_occursIn_B_newline : ¬ occursIn old_compile_marker ['\n'] :=
  not_occursIn_of_findSub_none rfl

theorem update_readme_content_eq_none_of_B {doc : List Char}
    (hB : findSub old_compile_marker doc = none) :
    update_readme_content doc = none := by
  rcases hA : findSub features_overview_marker doc with _ | iA <;>
    rcases hC : findSub skip_list_marker doc with _ | iC <;>
      simp [update_readme_content, hA, hB, hC]

theorem update_readme_readable_eq {doc out : List Char}
    (h : update_readme_content doc = some out) :
    update_readme (.readable doc) = (.readable out, .ok) := by
  simp [update_readme, h]

theorem update_readme_readable_none {doc : List Char}
    (h : update_readme_content doc = none) :
    update_readme (.readable doc) = (.readable doc, .markerNotFound) := by
  simp [update_readme, h]

theorem occursIn_append_right {pat ys : List Char} (xs : List Char)
    (h : occursIn pat ys) : occursIn pat (xs ++ ys) := by
  obtain ⟨i, hi⟩ := h
  refine ⟨xs.length + i, ?_⟩
  rw [List.drop_append_eq_append_drop,
    List.drop_eq_nil_of_le (Nat.le_add_right _ _), List.nil_append,
    Nat.add_sub_cancel_left]
  exact hi

/-- The concrete test document of spec section 8: marker A at index 2,
marker B at index 25, marker C at index 60. -/
def cDoc : List Char :=
"A\n## Features Overview\nF\n## How to Compile & Run Examples\nC\n## Skip List (`skiplist.h`)\nS\n".data

/-- The document a successful run on `cDoc` writes. -/
def cOut : List Char :=
  cDoc.take 2 ++ new_dir_structure_section ++ ['\n']
    ++ (cDoc.take 25).drop 2 ++ new_compile_section ++ ['\n']
    ++ cDoc.drop 60

/-- A document containing all three markers with their first occurrences out
of the expected order: marker C at index 0, marker B at index 28, marker A
at index 61. -/
def dBad : List Char :=
"## Skip List (`skiplist.h`)\n## How to Compile & Run Examples\n## Features Overview\n".data

/-- The first `n` characters of a readable file, `[]` otherwise. -/
def readableTake (n : Nat) : FileState → List Char
  | .readable c => c.take n
  | _ => []

theorem not_occursIn_B_cOut : ¬ occursIn old_compile_marker cOut := by
  unfold cOut new_dir_structure_section new_compile_section
  simp only [List.append_assoc]
  exact not_occursIn_append_chain rfl
    (not_occursIn_append_chain rfl
      (not_occursIn_append_chain rfl
        (not_occursIn_append_chain rfl
          (not_occursIn_append_chain rfl
            (not_occursIn_append_chain rfl
              (not_occursIn_append_chain rfl
                (not_occursIn_append_chain rfl
                  (not_occursIn_append_chain rfl
                    (not_occursIn_append_chain rfl
                      (not_occursIn_append_chain rfl
                        (not_occursIn_of_findSub_none rfl)))))))))))

/-- C1: for every document containing all three markers, a successful run
writes exactly Intro ++ NewStructureBlock ++ "\n" ++ Features ++
NewCompileBlock ++ "\n" ++ Tail, where Intro = doc[0:pos(A)],
Features = doc[pos(A):pos(B)] and Tail = doc[pos(C):], the positions being
the first occurrences of the three markers. -/
theorem C1_success_writes_reassembly (doc : List Char) (iA iB iC : Nat)
    (hA : findSub features_overview_marker doc = some iA)
    (hB : findSub old_compile_marker doc = some iB)
    (hC : findSub skip_list_marker doc = some iC) :
    update_readme (.readable doc) =
      (.readable (doc.take iA ++ new_dir_structure_section ++ ['\n']
        ++ (doc.take iB).drop iA ++ new_compile_section ++ ['\n']
        ++ doc.drop iC), .ok) :=
  update_readme_readable_eq (update_readme_content_eq hA hB hC)

/-- C1 witness: on the concrete document of spec section 8 the run reports
success and writes "A\n" ++ NewStructureBlock ++ "\n" ++
"## Features Overview\nF\n" ++ NewCompileBlock ++ "\n" ++
"## Skip List (...)\nS\n". -/
theorem C1_success_writes_reassembly_witness :
    findSub features_overview_marker cDoc = some 2 ∧
    findSub old_compile_marker cDoc = some 25 ∧
    findSub skip_list_marker cDoc = some 60 ∧
    update_readme (.readable cDoc) =
      (.readable ("A\n".data ++ new_dir_structure_section ++ "\n".data
        ++ "## Features Overview\nF\n".data ++ new_compile_section
        ++ "\n".data ++ "## Skip List (`skiplist.h`)\nS\n".data), .ok) := by
  refine ⟨rfl, rfl, rfl, ?_⟩
  have h := C1_success_writes_reassembly cDoc 2 25 60 rfl rfl rfl
  rw [h]
  rfl

/-- C2: whenever at least one of the three markers is absent, the run fails
with the single combined marker-not-found error and the stored document is
unchanged; which marker was missing is not distinguishable from the
outcome. -/
theorem C2_missing_marker_aborts (doc : List Char)
    (h : findSub features_overview_marker doc = none ∨
         findSub old_compile_marker doc = none ∨
         findSub skip_list_marker doc = none) :
    update_readme (.readable doc) = (.readable doc, .markerNotFound) := by
  apply update_readme_readable_none
  rcases h with h | h | h
  · rcases hB : findSub old_compile_marker doc with _ | iB <;>
      rcases hC : findSub skip_list_marker doc with _ | iC <;>
        simp [update_readme_content, h, hB, hC]
  · exact update_readme_content_eq_none_of_B h
  · rcases hA : findSub features_overview_marker doc with _ | iA <;>
      rcases hB : findSub old_compile_marker doc with _ | iB <;>
        simp [update_readme_content, hA, hB, h]

/-- C2 witness: a document with no markers at all makes the run abort with
`markerNotFound` and leaves the content untouched. -/
theorem C2_missing_marker_aborts_witness :
    findSub features_overview_marker "just some text\n".data = none ∧
    update_readme (.readable "just some text\n".data) =
      (.readable "just some text\n".data, .markerNotFound) :=
  ⟨rfl, C2_missing_marker_aborts "just some text\n".data (Or.inl rfl)⟩

/-- C3 counterexample: on `dBad` all three markers are present but out of
order (pos(A) = 61, pos(B) = 28, pos(C) = 0); the operation does NOT abort:
it reports success and rewrites the document to something different, so the
claim "the whole operation aborts without modifying the document" is false
on the code. -/
theorem C3_order_violation_counterexample :
    locateMarkers dBad = (some 61, some 28, some 0) ∧
    ¬ ((61 : Nat) ≤ 28 ∧ (28 : Nat) ≤ 0) ∧
    (update_readme (.readable dBad)).2 = RunResult.ok ∧
    (update_readme (.readable dBad)).1 ≠ FileState.readable dBad := by
  refine ⟨rfl, by decide, rfl, fun hcontra => ?_⟩
  have h1 := congrArg (readableTake 65) hcontra
  exact absurd h1 (by decide)

/-- C3 amended: when all three markers are present but their first
occurrences are out of order, the operation does not abort: it still
reports success and writes the document reassembled from the slices taken
at whatever indices were found. -/
theorem C3_order_violation_no_abort (doc : List Char) (iA iB iC : Nat)
    (h : locateMarkers doc = (some iA, some iB, some iC))
    (hOrder : ¬ (iA ≤ iB ∧ iB ≤ iC)) :
    update_readme (.readable doc) =
      (.readable (doc.take iA ++ new_dir_structure_section ++ ['\n']
        ++ (doc.take iB).drop iA ++ new_compile_section ++ ['\n']
        ++ doc.drop iC), .ok) := by
  unfold locateMarkers at h
  rw [Prod.mk.injEq, Prod.mk.injEq] at h
  obtain ⟨hA, hB, hC⟩ := h
  exact update_readme_readable_eq (update_readme_content_eq hA hB hC)

/-- C3 amended witness: the out-of-order document `dBad` is spliced and
written successfully instead of aborting. -/
theorem C3_order_violation_no_abort_witness :
    locateMarkers dBad = (some 61, some 28, some 0) ∧
    ¬ ((61 : Nat) ≤ 28 ∧ (28 : Nat) ≤ 0) ∧
    update_readme (.readable dBad) =
      (.readable (dBad.take 61 ++ new_dir_structure_section ++ ['\n']
        ++ (dBad.take 28).drop 61 ++ new_compile_section ++ ['\n']
        ++ dBad.drop 0), .ok) :=
  ⟨rfl, by decide, C3_order_violation_no_abort dBad 61 28 0 rfl (by decide)⟩

/-- C4: when all three markers are found the operation performs no ordering
validation: whatever the relative order of the indices, it raises no error
(the reported outcome is `ok`) and writes the document sliced with exactly
the indices found. -/
theorem C4_no_order_validation (doc : List Char) (iA iB iC : Nat)
    (h : locateMarkers doc = (some iA, some iB, some iC)) :
    (update_readme (.readable doc)).2 = RunResult.ok ∧
    (update_readme (.readable doc)).1 =
      .readable (doc.take iA ++ new_dir_structure_section ++ ['\n']
        ++ (doc.take iB).drop iA ++ new_compile_section ++ ['\n']
        ++ doc.drop iC) := by
  unfold locateMarkers at h
  rw [Prod.mk.injEq, Prod.mk.injEq] at h
  obtain ⟨hA, hB, hC⟩ := h
  rw [update_readme_readable_eq (update_readme_content_eq hA hB hC)]
  exact ⟨rfl, rfl⟩

/-- C4 witness: on `dBad`, where marker C occurs before marker B, the run
still reports `ok` and writes output. -/
theorem C4_no_order_validation_witness :
    locateMarkers dBad = (some 61, some 28, some 0) ∧
    (update_readme (.readable dBad)).2 = RunResult.ok :=
  ⟨rfl, (C4_no_order_validation dBad 61 28 0 rfl).1⟩

/-- C5: with the markers in order, Intro ++ Features ++ Tail equals
doc[0:pos(B)] ++ doc[pos(C):], i.e. exactly the original document with the
half-open span from pos(B) to pos(C) removed. -/
theorem C5_partition_exact (doc : List Char) (iA iB iC : Nat)
    (hA : findSub features_overview_marker doc = some iA)
    (hB : findSub old_compile_marker doc = some iB)
    (hC : findSub skip_list_marker doc = some iC)
    (h1 : iA ≤ iB) (h2 : iB ≤ iC) :
    doc.take iA ++ (doc.take iB).drop iA ++ doc.drop iC =
      doc.take iB ++ doc.drop iC := by
  have h3 : (doc.take iB).take iA = doc.take iA := by
    rw [List.take_take, Nat.min_eq_left h1]
  calc doc.take iA ++ (doc.take iB).drop iA ++ doc.drop iC
      = (doc.take iB).take iA ++ (doc.take iB).drop iA ++ doc.drop iC := by
        rw [h3]
    _ = doc.take iB ++ doc.drop iC := by rw [List.take_append_drop]

/-- C5 witness: the partition equality holds concretely on `cDoc`. -/
theorem C5_partition_exact_witness :
    findSub features_overview_marker cDoc = some 2 ∧
    (2 : Nat) ≤ 25 ∧ (25 : Nat) ≤ 60 ∧
    cDoc.take 2 ++ (cDoc.take 25).drop 2 ++ cDoc.drop 60 =
      cDoc.take 25 ++ cDoc.drop 60 :=
  ⟨rfl, by decide, by decide,
    C5_partition_exact cDoc 2 25 60 rfl rfl rfl (by decide) (by decide)⟩

/-- C6: the output of a successful run begins with the Intro span
doc[0:pos(A)] verbatim and ends with the Tail span doc[pos(C):] verbatim;
those sections are left untouched. -/
theorem C6_intro_tail_untouched (doc : List Char) (iA iB iC : Nat)
    (hA : findSub features_overview_marker doc = some iA)
    (hB : findSub old_compile_marker doc = some iB)
    (hC : findSub skip_list_marker doc = some iC) :
    ∃ mid, (update_readme (.readable doc)).1 =
      .readable (doc.take iA ++ mid ++ doc.drop iC) := by
  refine ⟨new_dir_structure_section ++ ['\n'] ++ (doc.take iB).drop iA
    ++ new_compile_section ++ ['\n'], ?_⟩
  rw [update_readme_readable_eq (update_readme_content_eq hA hB hC)]
  simp [List.append_assoc]

/-- C6 witness: on `cDoc` the output starts with "A\n" and ends with the
skip-list section. -/
theorem C6_intro_tail_untouched_witness :
    findSub features_overview_marker cDoc = some 2 ∧
    ∃ mid, (update_readme (.readable cDoc)).1 =
      .readable ("A\n".data ++ mid ++ "## Skip List (`skiplist.h`)\nS\n".data) := by
  refine ⟨rfl, ?_⟩
  obtain ⟨mid, hm⟩ := C6_intro_tail_untouched cDoc 2 25 60 rfl rfl rfl
  refine ⟨mid, ?_⟩
  rw [hm]
  rfl

/-- C7: marker location is a pure function of the content: locating twice
yields the identical index triple, and each index is the first occurrence
of its marker in the full document, independent of the other lookups. -/
theorem C7_locate_pure_full_scan (doc : List Char) (iA iB iC : Nat)
    (h : locateMarkers doc = (some iA, some iB, some iC)) :
    locateMarkers doc = locateMarkers doc ∧
    firstOccursAt features_overview_marker doc iA ∧
    firstOccursAt old_compile_marker doc iB ∧
    firstOccursAt skip_list_marker doc iC := by
  unfold locateMarkers at h
  rw [Prod.mk.injEq, Prod.mk.injEq] at h
  obtain ⟨hA, hB, hC⟩ := h
  exact ⟨rfl, findSub_some _ _ _ hA, findSub_some _ _ _ hB,
    findSub_some _ _ _ hC⟩

/-- C7 witness: instantiated on `cDoc` with the triple (2, 25, 60). -/
theorem C7_locate_pure_full_scan_witness :
    locateMarkers cDoc = (some 2, some 25, some 60) ∧
    (locateMarkers cDoc = locateMarkers cDoc ∧
     firstOccursAt features_overview_marker cDoc 2 ∧
     firstOccursAt old_compile_marker cDoc 25 ∧
     firstOccursAt skip_list_marker cDoc 60) :=
  ⟨rfl, C7_locate_pure_full_scan cDoc 2 25 60 rfl⟩

/-- C8 counterexample: an unreadable (but existing) input file does NOT
produce the `notFound` report: the script only catches
`FileNotFoundError`, so any other read failure escapes as an uncaught
exception (still with no output written). -/
theorem C8_unreadable_counterexample :
    update_readme (FileState.unreadable "X".data) =
      (FileState.unreadable "X".data, RunResult.uncaughtError) ∧
    (update_readme (FileState.unreadable "X".data)).2 ≠ RunResult.notFound :=
  ⟨rfl, by decide⟩

/-- C8 amended: a missing input file fails with `notFound` and nothing
further happens; an unreadable input file instead terminates with an
uncaught error, likewise performing no further action and writing no
output. -/
theorem C8_missing_input_notFound :
    update_readme FileState.absent = (FileState.absent, RunResult.notFound) ∧
    ∀ c, update_readme (FileState.unreadable c) =
      (FileState.unreadable c, RunResult.uncaughtError) :=
  ⟨rfl, fun _ => rfl⟩

/-- C9: the operation fails safely on its own output: if all three markers
are present in order, marker B does not occur in the Tail span, and no
occurrence of marker B is formed across the concatenation boundaries of the
output (every occurrence of B in the output, if any, would lie inside one
of the seven concatenated segments), then a second run on the first run's
output aborts with `markerNotFound` and leaves it unchanged — the
replacement compile block's heading lacks the " Examples" suffix, so marker
B is gone from the transformed document. -/
theorem C9_second_run_fails_safely (doc : List Char) (iA iB iC : Nat)
    (out : List Char)
    (hA : findSub features_overview_marker doc = some iA)
    (hB : findSub old_compile_marker doc = some iB)
    (hC : findSub skip_list_marker doc = some iC)
    (h1 : iA ≤ iB) (h2 : iB ≤ iC)
    (hTail : findSub old_compile_marker (doc.drop iC) = none)
    (hOut : update_readme (.readable doc) = (.readable out, .ok))
    (hNoCross : occursIn old_compile_marker out →
      occursIn old_compile_marker (doc.take iA) ∨
      occursIn old_compile_marker new_dir_structure_section ∨
      occursIn old_compile_marker ['\n'] ∨
      occursIn old_compile_marker ((doc.take iB).drop iA) ∨
      occursIn old_compile_marker new_compile_section ∨
      occursIn old_compile_marker (doc.drop iC)) :
    update_readme (.readable out) = (.readable out, .markerNotFound) := by
  have hBfirst := findSub_some _ _ _ hB
  have hBne : old_compile_marker ≠ [] := by decide
  have hno : ¬ occursIn old_compile_marker out := by
    intro hocc
    rcases hNoCross hocc with h | h | h | h | h | h
    · have hni := not_occursIn_take_drop (m := 0) hBfirst hBne h1
      rw [List.drop_zero] at hni
      exact hni h
    · exact not_occursIn_B_new_dir_structure h
    · exact not_occursIn_B_newline h
    · exact not_occursIn_take_drop hBfirst hBne (Nat.le_refl iB) h
    · exact not_occursIn_B_new_compile h
    · exact not_occursIn_of_findSub_none hTail h
  exact update_readme_readable_none
    (update_readme_content_eq_none_of_B (findSub_eq_none_of_not_occurs hno))

/-- C9 witness: on `cDoc` the first run writes `cOut`, marker B occurs
nowhere in `cOut`, and the second run aborts with `markerNotFound`, leaving
`cOut` unchanged. -/
theorem C9_second_run_fails_safely_witness :
    findSub old_compile_marker cDoc = some 25 ∧
    findSub old_compile_marker (cDoc.drop 60) = none ∧
    update_readme (.readable cDoc) = (.readable cOut, .ok) ∧
    update_readme (.readable cOut) = (.readable cOut, .markerNotFound) := by
  refine ⟨rfl, rfl, rfl, ?_⟩
  exact C9_second_run_fails_safely cDoc 2 25 60 cOut rfl rfl rfl
    (by decide) (by decide) rfl rfl
    (fun h => absurd h not_occursIn_B_cOut)

/-- C10: when the Features span is long enough to hold marker A (pos(A) +
len(A) ≤ pos(B)), the extracted span doc[pos(A):pos(B)] begins with the
literal marker string itself, and a successful run's output still contains
the "## Features Overview" heading. -/
theorem C10_features_keeps_heading (doc : List Char) (iA iB iC : Nat)
    (out : List Char)
    (hA : findSub features_overview_marker doc = some iA)
    (hB : findSub old_compile_marker doc = some iB)
    (hC : findSub skip_list_marker doc = some iC)
    (hLen : iA + features_overview_marker.length ≤ iB)
    (hOut : update_readme (.readable doc) = (.readable out, .ok)) :
    features_overview_marker.isPrefixOf ((doc.take iB).drop iA) = true ∧
    occursIn features_overview_marker out := by
  have hpre : features_overview_marker.isPrefixOf (doc.drop iA) = true :=
    (findSub_some _ _ _ hA).1
  have hfeat :
      features_overview_marker.isPrefixOf ((doc.take iB).drop iA) = true := by
    rw [List.drop_take]
    rw [isPrefixOf_iff_exists] at hpre ⊢
    obtain ⟨t, ht⟩ := hpre
    have hAlen : features_overview_marker.length ≤ iB - iA := by
      have := List.length_take_le iA doc
      omega
    refine ⟨t.take (iB - iA - features_overview_marker.length), ?_⟩
    rw [ht, List.take_append_eq_append_take,
      List.take_of_length_le hAlen]
  refine ⟨hfeat, ?_⟩
  have hout_eq : out = doc.take iA ++ new_dir_structure_section ++ ['\n']
      ++ (doc.take iB).drop iA ++ new_compile_section ++ ['\n']
      ++ doc.drop iC := by
    have h2 := update_readme_readable_eq (update_readme_content_eq hA hB hC)
    have h3 := h2.symm.trans hOut
    have h4 := congrArg Prod.fst h3
    injection h4 with h5
    exact h5.symm
  rw [hout_eq]
  simp only [List.append_assoc]
  apply occursIn_append_right
  apply occursIn_append_right
  apply occursIn_append_right
  refine ⟨0, ?_⟩
  rw [List.drop_zero]
  exact isPrefixOf_append_left _ hfeat

/-- C10 witness: instantiated on `cDoc` (pos(A)=2, len(A)=20, pos(B)=25)
and its output `cOut`. -/
theorem C10_features_keeps_heading_witness :
    (2 : Nat) + features_overview_marker.length ≤ 25 ∧
    (features_overview_marker.isPrefixOf ((cDoc.take 25).drop 2) = true ∧
     occursIn features_overview_marker cOut) :=
  ⟨by decide,
    C10_features_keeps_heading cDoc 2 25 60 cOut rfl rfl rfl (by decide) rfl⟩
